import Mathlib

/-!
Verification of the crawl orchestration engine in
`src/backend/amazon_crawler.py` (class `AmazonCrawler`).

The Python source is shallowly embedded below:

* `FetchOutcome` mirrors the spec's tagged variant for the result of one
  navigation attempt of `_safe_get`.
* `AttemptView` records what the external world (browser collaborator)
  presents to a single navigation attempt: whether `page.goto` raised a
  timeout, returned no response object, or returned a response with a
  status; whether a CAPTCHA form is present; the page title; the rendered
  content; and whether the random scroll side effect raises.
* `classifyAttempt` reproduces the body of `_safe_get` (lines 225-278)
  for one attempt; `safeGetClassify` adds the shutdown-flag check that
  precedes it (lines 222-223).
* `safeGetRetry` / `safe_get` reproduce the `@retry(tries=3, delay=2,
  backoff=2)` decorator on `_safe_get`: up to 3 attempts, sleeping 2s then
  4s between failed attempts, the last exception propagating.
* The crawl loop `crawl_category`, extraction `extract_product_data`
  (modelled as `extract_core` plus the shutdown checkpoint), and the
  incremental save `_save_data` are embedded further below with an
  explicit event trace (navigations started, batches saved) and an
  explicit clock: the process-wide shutdown flag `is_shutting_down` is
  monotone (set once, never cleared), so it is modelled as an optional
  instant `shutAt` at which it becomes true, and each read of the flag
  ticks the clock.
-/

namespace Crawler

/-- Result of one navigation attempt, per the spec's `FetchOutcome`. -/
inductive FetchOutcome where
  | ShuttingDown
  | TransportError (msg : String)
  | RateLimited
  | CaptchaChallenge
  | RobotCheck
  | Timeout
  | Success (content : String)
deriving DecidableEq, Repr

/-- What `page.goto(url, ...)` produced: a raised `PlaywrightTimeoutError`,
a null response object, or a response with an HTTP status. -/
inductive NavResponse where
  | timeout
  | noResponse
  | response (status : Nat)
deriving DecidableEq, Repr

/-- The world as seen by one navigation attempt inside `_safe_get`. -/
structure AttemptView where
  nav : NavResponse
  captchaCount : Nat
  title : String
  content : String
  scrollFails : Bool
deriving Repr

/-- Python's `str.lower()` restricted to per-character lowering. -/
def pyLower (s : String) : String := ⟨s.data.map Char.toLower⟩

/-- Python's `str.strip()`: drop leading and trailing whitespace. -/
def pyStrip (s : String) : String :=
  ⟨((s.data.dropWhile Char.isWhitespace).reverse.dropWhile Char.isWhitespace).reverse⟩

/-- Contiguous-substring test over character lists (Python's `in`). -/
def hasSub (needle : List Char) : List Char → Bool
  | [] => needle.isEmpty
  | c :: rest => needle.isPrefixOf (c :: rest) || hasSub needle rest

/-- Python's `"robot check" in title.lower()` (line 263). -/
def robotTitle (a : AttemptView) : Bool :=
  hasSub ("robot check".toList) (pyLower a.title).toList

/-- Classification of one navigation attempt, lines 225-278 of
`_safe_get`: a goto timeout re-raises `PlaywrightTimeoutError`; a null
response raises `Exception("No response received")`; status 503 or 429
raises `Exception("Rate limited")`; a CAPTCHA form raises
`Exception("CAPTCHA encountered")`; a robot-check title raises
`Exception("Robot check encountered")`; then `scroll_randomly()` is
awaited, whose exception is re-raised by the generic handler; otherwise
the rendered `page.content()` is returned. -/
def classifyAttempt (a : AttemptView) : FetchOutcome :=
  match a.nav with
  | NavResponse.timeout => FetchOutcome.Timeout
  | NavResponse.noResponse => FetchOutcome.TransportError "No response received"
  | NavResponse.response status =>
    if status == 503 || status == 429 then FetchOutcome.RateLimited
    else if 0 < a.captchaCount then FetchOutcome.CaptchaChallenge
    else if robotTitle a then FetchOutcome.RobotCheck
    else if a.scrollFails then FetchOutcome.TransportError "scroll error"
    else FetchOutcome.Success a.content

/-- One call of `_safe_get`'s body: the shutdown flag is read first
(lines 222-223, raising `GracefulExit`), then the attempt proceeds. -/
def safeGetClassify (sd : Bool) (a : AttemptView) : FetchOutcome :=
  if sd then FetchOutcome.ShuttingDown else classifyAttempt a

/-- An attempt fails iff it raised, i.e. produced anything but `Success`
(the retry decorator catches every `Exception`, `GracefulExit` included). -/
def isFailure : FetchOutcome → Bool
  | FetchOutcome.Success _ => false
  | _ => true

/-- The shutdown flag `is_shutting_down` is monotone (set once by
`initiate_shutdown`, never cleared), modelled by the instant at which it
becomes true; `none` means it is never set. -/
def flagAt (shutAt : Option Nat) (t : Nat) : Bool :=
  match shutAt with
  | none => false
  | some s => decide (s ≤ t)

/-- The product record built by `extract_product_data` (lines 341-350).
`details` is a Python dict built by insertion, kept as an ordered
association list (update-in-place for an existing key, append otherwise). -/
structure ProductData where
  title : String
  price : Option String
  rating : Option String
  reviews_count : Option String
  features : List String
  details : List (String × String)
  url : String
  timestamp : String
deriving DecidableEq, Repr

/-- Trace events of a run: `nav t url` marks `page.goto(url, ...)` being
issued at clock `t`; `save batch` marks `_save_data(batch, filename)`. -/
inductive Ev where
  | nav (t : Nat) (url : String)
  | save (batch : List ProductData)
deriving DecidableEq, Repr

/-- Result of one `_safe_get` call through its `@retry(tries=3, delay=2,
backoff=2)` decorator: the final outcome, the clock afterwards, the trace
events emitted, the number of attempts made, and the backoff delays slept
between attempts. -/
structure FetchRes where
  outcome : FetchOutcome
  clock : Nat
  events : List Ev
  attemptsMade : Nat
  backoffs : List Nat
deriving Repr

/-- One attempt of `_safe_get` with trace: the flag is read at clock `t`
(one tick); only when it is false is the navigation actually started. -/
def safeGetAttemptT (shutAt : Option Nat) (url : String) (a : AttemptView) (t : Nat) :
    FetchOutcome × Nat × List Ev :=
  if flagAt shutAt t then (FetchOutcome.ShuttingDown, t + 1, [])
  else (classifyAttempt a, t + 1, [Ev.nav t url])

/-- The backoff schedule of the `retry` decorator: with `tries` attempts
in total, `tries - 1` delays are slept between attempts, starting at
`delay` and multiplied by `backoff` after each failure. -/
def backoffDelays : Nat → Nat → Nat → List Nat
  | 0, _, _ => []
  | 1, _, _ => []
  | Nat.succ (Nat.succ n), delay, backoff =>
    delay :: backoffDelays (Nat.succ n) (delay * backoff) backoff

/-- The `retry` decorator's loop, driven by the list of backoff delays
still available: an attempt that raises consumes the next delay (slept
before re-calling) and retries; when no delay is left the attempt's
exception propagates to the caller. -/
def safeGetRetry (shutAt : Option Nat) (url : String) (attempts : Nat → AttemptView) :
    List Nat → Nat → Nat → FetchRes
  | [], idx, t =>
    let r := safeGetAttemptT shutAt url (attempts idx) t
    ⟨r.1, r.2.1, r.2.2, 1, []⟩
  | d :: ds, idx, t =>
    let r := safeGetAttemptT shutAt url (attempts idx) t
    if isFailure r.1 then
      let r2 := safeGetRetry shutAt url attempts ds (idx + 1) r.2.1
      ⟨r2.outcome, r2.clock, r.2.2 ++ r2.events, r2.attemptsMade + 1, d :: r2.backoffs⟩
    else ⟨r.1, r.2.1, r.2.2, 1, []⟩

/-- `_safe_get` as decorated: `@retry(tries=3, delay=2, backoff=2)`. -/
def safe_get (shutAt : Option Nat) (url : String) (attempts : Nat → AttemptView)
    (t : Nat) : FetchRes :=
  safeGetRetry shutAt url attempts (backoffDelays 3 2 2) 0 t

/-! ## Extraction (`extract_product_data`, lines 280-357) -/

/-- A rendered product page as `extract_product_data` observes it:
`selText` lists the selectors whose `wait_for_selector`/`inner_text`
succeed, with the element's text; `ratingAttr` is the `title` attribute
of `span#acrPopover` (none when the locator or attribute access fails);
`reviewsText` the text of `span#acrCustomerReviewText`; `featuresOpt` the
texts of `div#feature-bullets li` (none when that probe raises);
`detailRows` the `(th, td)` texts of the tech-spec table rows (outer none
when the table probe raises, inner none when a cell's `inner_text`
raises); `url` is `page.url` and `now` the `datetime.now().isoformat()`
timestamp. -/
structure ProductPage where
  selText : List (String × String)
  ratingAttr : Option String
  reviewsText : Option String
  featuresOpt : Option (List String)
  detailRows : Option (List (Option String × Option String))
  url : String
  now : String
deriving DecidableEq, Repr

/-- `page.wait_for_selector(sel)` / `page.locator(sel).inner_text()`:
text of the element when `sel` is present, none when the wait raises. -/
def lookupSel (p : ProductPage) (sel : String) : Option String :=
  (p.selText.find? (fun kv => kv.1 == sel)).map (fun kv => kv.2)

/-- The ordered price fallback list of lines 291-299 (7 layout variants). -/
def price_selectors : List String :=
  ["span.a-price-whole",
   "span.a-offscreen",
   "#priceblock_ourprice",
   "#priceblock_dealprice",
   ".a-price .a-offscreen",
   "#price_inside_buybox",
   "#corePrice_feature_div .a-price .a-offscreen"]

/-- The price probe loop (lines 301-309): for each selector in order,
`wait_for_selector(selector, timeout=5000)`; if it raises, continue; if
it returns an element, take its `inner_text()` (whatever it is, empty
included) and break. -/
def firstPrice (p : ProductPage) : Option String :=
  price_selectors.findSome? (fun sel => lookupSel p sel)

/-- Python-dict insertion (lines 328-337): `details[label] = value`
updates an existing key in place and appends a fresh key. -/
def insertDetail (d : List (String × String)) (k v : String) : List (String × String) :=
  if d.any (fun kv => kv.1 == k) then
    d.map (fun kv => if kv.1 == k then (k, v) else kv)
  else d ++ [(k, v)]

/-- The technical-details table loop: rows whose `th` or `td` text raises
are skipped; a failing table probe leaves the dict empty. -/
def buildDetails : Option (List (Option String × Option String)) → List (String × String)
  | none => []
  | some rows =>
    rows.foldl
      (fun d row =>
        match row with
        | (some l, some v) => insertDetail d (pyStrip l) (pyStrip v)
        | _ => d)
      []

/-- Result of `extract_product_data`: `gracefulExit` when the shutdown
check (lines 282-283) raises; `failure` when the required-title wait
raises and the outer handler returns `{}` (lines 286-287, 355-357);
`success` with the built record otherwise. -/
inductive ExtractOutcome where
  | gracefulExit
  | failure
  | success (r : ProductData)
deriving DecidableEq, Repr

/-- Body of `extract_product_data` past the shutdown checkpoint: the
required title (15s wait) gates everything; every other field is
best-effort with its own handler. -/
def extract_core (p : ProductPage) : ExtractOutcome :=
  match lookupSel p "span#productTitle" with
  | none => ExtractOutcome.failure
  | some t =>
    ExtractOutcome.success
      { title := t
        price := firstPrice p
        rating := p.ratingAttr
        reviews_count := p.reviewsText
        features := p.featuresOpt.getD []
        details := buildDetails p.detailRows
        url := p.url
        timestamp := p.now }

/-- `extract_product_data` with the shutdown checkpoint and clock tick. -/
def extractT (shutAt : Option Nat) (p : ProductPage) (t : Nat) : ExtractOutcome × Nat :=
  if flagAt shutAt t then (ExtractOutcome.gracefulExit, t + 1)
  else (extract_core p, t + 1)

/-! ## Traversal (`crawl_category`, lines 359-427) and persistence -/

/-- Python's `s.startswith(pre)`. -/
def pyStartsWith (s pre : String) : Bool := pre.data.isPrefixOf s.data

/-- `full_url = f"{self.base_url}{product_url}" if not
product_url.startswith('http') else product_url` (line 395). -/
def resolveUrl (base u : String) : String :=
  if pyStartsWith u "http" then u else base ++ u

/-- One product link as the world presents it: the `href` attribute
(possibly null), the attempt views for `_safe_get` on its page, and the
rendered product page for extraction. -/
structure ProdSpec where
  url : Option String
  attempts : Nat → AttemptView
  page : ProductPage

/-- One category result page: the attempt views for its `_safe_get`,
whether the `div.s-main-slot` grid wait succeeds, and its product links. -/
structure CatPageSpec where
  attempts : Nat → AttemptView
  gridOk : Bool
  products : List ProdSpec

/-- Mutable state threaded through `crawl_category`: the accumulated
`products_data` buffer, the clock, and the event trace. -/
structure CrawlSt where
  buffer : List ProductData
  clock : Nat
  events : List Ev
deriving Repr

/-- Lines 404-406: `if len(products_data) % 5 == 0:
self._save_data(products_data, f"products_{...}.csv")`. -/
def flushCheck (st : CrawlSt) : CrawlSt :=
  if st.buffer.length % 5 == 0 then
    { st with events := st.events ++ [Ev.save st.buffer] }
  else st

/-- The per-product loop (lines 388-414): check the flag (break), skip
null hrefs, resolve the URL, `_safe_get` (a raising fetch is caught and
the loop continues), extraction (`GracefulExit` is caught by the same
per-product handler), append a truthy record, then the incremental-save
check. -/
def productLoop (shutAt : Option Nat) (base : String) :
    List ProdSpec → CrawlSt → CrawlSt
  | [], st => st
  | prod :: rest, st =>
    if flagAt shutAt st.clock then { st with clock := st.clock + 1 }
    else
      let st1 : CrawlSt := { st with clock := st.clock + 1 }
      match prod.url with
      | none => productLoop shutAt base rest st1
      | some u =>
        let full := resolveUrl base u
        let fr := safe_get shutAt full prod.attempts st1.clock
        let st2 : CrawlSt := { st1 with clock := fr.clock, events := st1.events ++ fr.events }
        if isFailure fr.outcome then productLoop shutAt base rest st2
        else
          let ex := extractT shutAt prod.page st2.clock
          let st3 : CrawlSt := { st2 with clock := ex.2 }
          match ex.1 with
          | ExtractOutcome.gracefulExit => productLoop shutAt base rest st3
          | ExtractOutcome.failure => productLoop shutAt base rest (flushCheck st3)
          | ExtractOutcome.success r =>
            productLoop shutAt base rest
              (flushCheck { st3 with buffer := st3.buffer ++ [r] })

/-- The page loop (lines 368-420): check the flag (break), fetch the
paginated category URL, wait for the grid, then walk the product links;
any failure at page level is caught and the loop continues. -/
def pageLoop (shutAt : Option Nat) (base catUrl : String) (world : Nat → CatPageSpec) :
    List Nat → CrawlSt → CrawlSt
  | [], st => st
  | n :: rest, st =>
    if flagAt shutAt st.clock then { st with clock := st.clock + 1 }
    else
      let st1 : CrawlSt := { st with clock := st.clock + 1 }
      let spec := world n
      let url := catUrl ++ "&page=" ++ toString n
      let fr := safe_get shutAt url spec.attempts st1.clock
      let st2 : CrawlSt := { st1 with clock := fr.clock, events := st1.events ++ fr.events }
      if isFailure fr.outcome then pageLoop shutAt base catUrl world rest st2
      else if spec.gridOk then
        pageLoop shutAt base catUrl world rest (productLoop shutAt base spec.products st2)
      else pageLoop shutAt base catUrl world rest st2

/-- `crawl_category(category_url, max_pages)`: the entry checkpoint
(lines 361-362) raises `GracefulExit` to the caller (`none`); otherwise
the page loop runs over `range(1, max_pages + 1)` and the accumulated
state is returned. -/
def crawl_category (shutAt : Option Nat) (base catUrl : String)
    (world : Nat → CatPageSpec) (maxPages t0 : Nat) : Option CrawlSt :=
  if flagAt shutAt t0 then none
  else some (pageLoop shutAt base catUrl world (List.range' 1 maxPages) ⟨[], t0 + 1, []⟩)

/-- The driver (`main`, lines 478-485): crawl, then save the final buffer
once when it is non-empty. Returns the final buffer and the event trace,
or `none` when `crawl_category` raised `GracefulExit` at entry. -/
def runMain (shutAt : Option Nat) (base catUrl : String)
    (world : Nat → CatPageSpec) (maxPages t0 : Nat) :
    Option (List ProductData × List Ev) :=
  match crawl_category shutAt base catUrl world maxPages t0 with
  | none => none
  | some st =>
    if st.buffer.isEmpty then some (st.buffer, st.events)
    else some (st.buffer, st.events ++ [Ev.save st.buffer])

/-- The batches handed to `_save_data` over a run, in order. -/
def savedBatches (evs : List Ev) : List (List ProductData) :=
  evs.filterMap (fun e => match e with | Ev.save b => some b | _ => none)

/-- How many times record `r` is written to durable storage across all
`_save_data` calls of the trace. -/
def persistCount (evs : List Ev) (r : ProductData) : Nat :=
  (savedBatches evs).foldl (fun n b => n + b.count r) 0

/-- Every navigation in the trace was issued at an instant where the
shutdown flag read false. -/
def navsOk (shutAt : Option Nat) (evs : List Ev) : Prop :=
  ∀ t u, Ev.nav t u ∈ evs → flagAt shutAt t = false

/-- The price policy exactly as the claim words it: the first candidate
that both exists and yields non-empty text within its wait. Modelled
from the spec sentence, for comparison against `firstPrice`, which
follows the source. -/
def firstPriceClaim (p : ProductPage) : Option String :=
  price_selectors.findSome? (fun sel =>
    match lookupSel p sel with
    | some t => if t = "" then none else some t
    | none => none)

/-! ## Concrete sample inputs -/

/-- An attempt the classifier accepts: status-200 response, no CAPTCHA,
a harmless title, a scroll sequence that completes. -/
def okView : AttemptView := ⟨NavResponse.response 200, 0, "t", "x", false⟩

/-- An attempt whose `page.goto` raises `PlaywrightTimeoutError`. -/
def timeoutView : AttemptView := ⟨NavResponse.timeout, 0, "t", "x", false⟩

/-- An attempt that passes every classification check but whose random
scroll sequence raises. -/
def scrollFailView : AttemptView := ⟨NavResponse.response 200, 0, "ok", "body", true⟩

/-- A product page with only the required title present. -/
def titlePage : ProductPage :=
  ⟨[("span#productTitle", "T")], none, none, some [], none, "u", "ts"⟩

/-- A product page on which the required title element never appears. -/
def noTitlePage : ProductPage :=
  ⟨[], none, none, some [], none, "u", "ts"⟩

/-- A product page whose first matching price selector has empty text
while a later one has a non-empty price. -/
def priceEmptyPage : ProductPage :=
  ⟨[("span#productTitle", "T"), ("span.a-price-whole", ""),
    ("span.a-offscreen", "$9.99")], none, none, some [], none, "u", "ts"⟩

/-- A product page with every field present. -/
def fullPage : ProductPage :=
  ⟨[("span#productTitle", "T"), ("span.a-offscreen", "$5")],
   some "4.5 out of 5 stars", some "12 ratings", some ["f1"],
   some [(some "K", some "V")], "u", "ts"⟩

/-- The record extracted from `titlePage`. -/
def rec0 : ProductData := ⟨"T", none, none, none, [], [], "u", "ts"⟩

/-- The record extracted from `priceEmptyPage`. -/
def recPriceEmpty : ProductData := ⟨"T", some "", none, none, [], [], "u", "ts"⟩

/-- The record extracted from `fullPage`. -/
def recFull : ProductData :=
  ⟨"T", some "$5", some "4.5 out of 5 stars", some "12 ratings", ["f1"],
   [("K", "V")], "u", "ts"⟩

/-- One category page holding a single well-behaved product link. -/
def W1 : Nat → CatPageSpec :=
  fun _ => ⟨fun _ => okView, true, [⟨some "http://p", fun _ => okView, titlePage⟩]⟩

/-- A product page carrying only a title, tagged by its URL. -/
def taggedPage (u : String) : ProductPage :=
  ⟨[("span#productTitle", u)], none, none, some [], none, u, "ts"⟩

/-- The record extracted from `taggedPage u`. -/
def taggedRec (u : String) : ProductData := ⟨u, none, none, none, [], [], u, "ts"⟩

/-- A well-behaved product link for `taggedPage u`. -/
def taggedProd (u : String) : ProdSpec := ⟨some u, fun _ => okView, taggedPage u⟩

/-- One category page holding five well-behaved product links, so that
the buffer reaches five records and the incremental save fires once
during the crawl. -/
def W5 : Nat → CatPageSpec :=
  fun _ => ⟨fun _ => okView, true,
    [taggedProd "http://1", taggedProd "http://2", taggedProd "http://3",
     taggedProd "http://4", taggedProd "http://5"]⟩

/-- The buffer accumulated by a run over `W5`. -/
def buf5 : List ProductData :=
  [taggedRec "http://1", taggedRec "http://2", taggedRec "http://3",
   taggedRec "http://4", taggedRec "http://5"]

/-- The event trace of a run over `W5`: one category-page navigation,
five product navigations, the incremental save at five records, and the
final save of the same five records. -/
def evs5 : List Ev :=
  [Ev.nav 2 "c&page=1", Ev.nav 4 "http://1", Ev.nav 7 "http://2",
   Ev.nav 10 "http://3", Ev.nav 13 "http://4", Ev.nav 16 "http://5",
   Ev.save buf5, Ev.save buf5]

/-- The event trace of a run over `W1`. -/
def evs1 : List Ev :=
  [Ev.nav 2 "c&page=1", Ev.nav 4 "http://p", Ev.save [rec0]]

/-! ## Basic lemmas about the embedding -/

lemma flagAt_none (t : Nat) : flagAt none t = false := rfl

lemma backoffDelays_3_2_2 : backoffDelays 3 2 2 = [2, 4] := rfl

lemma safeGetAttemptT_none (url : String) (a : AttemptView) (t : Nat) :
    safeGetAttemptT none url a t = (classifyAttempt a, t + 1, [Ev.nav t url]) := by
  simp [safeGetAttemptT, flagAt]

/-- With no shutdown, a first attempt that classifies as `Success`
returns immediately: one attempt, one navigation, no backoff. -/
lemma safe_get_first_success (url : String) (atts : Nat → AttemptView) (t : Nat) (c : String)
    (h : classifyAttempt (atts 0) = FetchOutcome.Success c) :
    safe_get none url atts t =
      ⟨FetchOutcome.Success c, t + 1, [Ev.nav t url], 1, []⟩ := by
  simp [safe_get, backoffDelays_3_2_2, safeGetRetry, safeGetAttemptT_none, h, isFailure]

/-- With no shutdown and every attempt raising, the retry budget is
consumed: three attempts, three navigations, backoffs 2s then 4s, and the
final outcome is the third attempt's classification. -/
lemma safe_get_all_fail (url : String) (atts : Nat → AttemptView) (t : Nat)
    (h0 : isFailure (classifyAttempt (atts 0)) = true)
    (h1 : isFailure (classifyAttempt (atts 1)) = true) :
    safe_get none url atts t =
      ⟨classifyAttempt (atts 2), t + 3,
       [Ev.nav t url, Ev.nav (t + 1) url, Ev.nav (t + 2) url], 3, [2, 4]⟩ := by
  simp [safe_get, backoffDelays_3_2_2, safeGetRetry, safeGetAttemptT_none, h0, h1]

/-- Visiting one product link whose fetch succeeds on the first attempt
and whose extraction succeeds: the record is appended, the
incremental-save check runs, and the loop continues with the rest. -/
lemma productLoop_cons_success (base : String) (prod : ProdSpec) (rest : List ProdSpec)
    (st : CrawlSt) (u c : String) (r : ProductData)
    (hu : prod.url = some u)
    (hf : classifyAttempt (prod.attempts 0) = FetchOutcome.Success c)
    (he : extract_core prod.page = ExtractOutcome.success r) :
    productLoop none base (prod :: rest) st =
      productLoop none base rest
        (flushCheck ⟨st.buffer ++ [r], st.clock + 3,
          st.events ++ [Ev.nav (st.clock + 1) (resolveUrl base u)]⟩) := by
  simp only [productLoop, flagAt_none, Bool.false_eq_true, if_false, hu,
    safe_get_first_success _ _ _ _ hf, extractT, isFailure, he]

/-- Visiting one product link whose fetch succeeds but whose extraction
returns the empty record `{}`: nothing is appended, yet the
incremental-save check still runs on the unchanged buffer. -/
lemma productLoop_cons_extract_failure (base : String) (prod : ProdSpec)
    (rest : List ProdSpec) (st : CrawlSt) (u c : String)
    (hu : prod.url = some u)
    (hf : classifyAttempt (prod.attempts 0) = FetchOutcome.Success c)
    (he : extract_core prod.page = ExtractOutcome.failure) :
    productLoop none base (prod :: rest) st =
      productLoop none base rest
        (flushCheck ⟨st.buffer, st.clock + 3,
          st.events ++ [Ev.nav (st.clock + 1) (resolveUrl base u)]⟩) := by
  simp only [productLoop, flagAt_none, Bool.false_eq_true, if_false, hu,
    safe_get_first_success _ _ _ _ hf, extractT, isFailure, he]

lemma navsOk_nil (sa : Option Nat) : navsOk sa [] := by
  intro t u h
  simp at h

lemma navsOk_append {sa : Option Nat} {l1 l2 : List Ev}
    (h1 : navsOk sa l1) (h2 : navsOk sa l2) : navsOk sa (l1 ++ l2) := by
  intro t u h
  rcases List.mem_append.mp h with h | h
  · exact h1 t u h
  · exact h2 t u h

lemma navsOk_save (sa : Option Nat) (b : List ProductData) :
    navsOk sa [Ev.save b] := by
  intro t u h
  simp at h

lemma navsOk_attempt (sa : Option Nat) (url : String) (a : AttemptView) (t : Nat) :
    navsOk sa (safeGetAttemptT sa url a t).2.2 := by
  by_cases h : flagAt sa t
  · simp [safeGetAttemptT, h, navsOk]
  · simp only [Bool.not_eq_true] at h
    simp [safeGetAttemptT, h, navsOk]

lemma navsOk_retry (sa : Option Nat) (url : String) (atts : Nat → AttemptView) :
    ∀ (ds : List Nat) (idx t : Nat),
      navsOk sa (safeGetRetry sa url atts ds idx t).events := by
  intro ds
  induction ds with
  | nil =>
    intro idx t
    exact navsOk_attempt sa url (atts idx) t
  | cons d ds ih =>
    intro idx t
    simp only [safeGetRetry]
    split
    · exact navsOk_append (navsOk_attempt sa url (atts idx) t)
        (ih (idx + 1) (safeGetAttemptT sa url (atts idx) t).2.1)
    · exact navsOk_attempt sa url (atts idx) t

lemma navsOk_safe_get (sa : Option Nat) (url : String) (atts : Nat → AttemptView)
    (t : Nat) : navsOk sa (safe_get sa url atts t).events :=
  navsOk_retry sa url atts (backoffDelays 3 2 2) 0 t

lemma navsOk_flushCheck {sa : Option Nat} {st : CrawlSt}
    (h : navsOk sa st.events) : navsOk sa (flushCheck st).events := by
  unfold flushCheck
  split
  · exact navsOk_append h (navsOk_save sa st.buffer)
  · exact h

lemma navsOk_productLoop (sa : Option Nat) (base : String) :
    ∀ (prods : List ProdSpec) (st : CrawlSt),
      navsOk sa st.events → navsOk sa (productLoop sa base prods st).events := by
  intro prods
  induction prods with
  | nil => intro st h; exact h
  | cons prod rest ih =>
    intro st h
    simp only [productLoop]
    split
    · exact h
    · cases hu : prod.url with
      | none => exact ih _ h
      | some u =>
        simp only []
        split
        · exact ih _ (navsOk_append h (navsOk_safe_get sa (resolveUrl base u)
            prod.attempts (st.clock + 1)))
        · have h2 : navsOk sa
              (st.events ++ (safe_get sa (resolveUrl base u) prod.attempts (st.clock + 1)).events) :=
            navsOk_append h (navsOk_safe_get sa (resolveUrl base u) prod.attempts (st.clock + 1))
          split
          · exact ih _ h2
          · exact ih _ (navsOk_flushCheck h2)
          · exact ih _ (navsOk_flushCheck h2)

lemma navsOk_pageLoop (sa : Option Nat) (base catUrl : String)
    (world : Nat → CatPageSpec) :
    ∀ (ns : List Nat) (st : CrawlSt),
      navsOk sa st.events → navsOk sa (pageLoop sa base catUrl world ns st).events := by
  intro ns
  induction ns with
  | nil => intro st h; exact h
  | cons n rest ih =>
    intro st h
    simp only [pageLoop]
    split
    · exact h
    · have h2 : navsOk sa
          (st.events ++ (safe_get sa (catUrl ++ "&page=" ++ toString n)
            (world n).attempts (st.clock + 1)).events) :=
        navsOk_append h (navsOk_safe_get sa _ (world n).attempts (st.clock + 1))
      split
      · exact ih _ h2
      · split
        · exact ih _ (navsOk_productLoop sa base (world n).products _ h2)
        · exact ih _ h2

lemma findSome?_some_split {α β : Type} (f : α → Option β) :
    ∀ (l : List α) (b : β), l.findSome? f = some b →
      ∃ l1 a l2, l = l1 ++ a :: l2 ∧ (∀ x ∈ l1, f x = none) ∧ f a = some b := by
  intro l
  induction l with
  | nil => intro b h; simp [List.findSome?] at h
  | cons x xs ih =>
    intro b h
    rw [List.findSome?] at h
    cases hx : f x with
    | some v =>
      rw [hx] at h
      refine ⟨[], x, xs, rfl, by simp, ?_⟩
      rw [hx]
      exact h
    | none =>
      rw [hx] at h
      obtain ⟨l1, a, l2, hl, hn, ha⟩ := ih b h
      refine ⟨x :: l1, a, l2, by rw [hl]; rfl, ?_, ha⟩
      intro y hy
      rcases List.mem_cons.mp hy with rfl | hy
      · exact hx
      · exact hn y hy

lemma findSome?_none_all {α β : Type} (f : α → Option β) :
    ∀ (l : List α), l.findSome? f = none → ∀ x ∈ l, f x = none := by
  intro l
  induction l with
  | nil => intro _ x hx; simp at hx
  | cons y ys ih =>
    intro h x hx
    rw [List.findSome?] at h
    cases hy : f y with
    | some v => rw [hy] at h; exact absurd h (by simp)
    | none =>
      rw [hy] at h
      rcases List.mem_cons.mp hx with rfl | hx
      · exact hy
      · exact ih h x hx

lemma savedBatches_append (a b : List Ev) :
    savedBatches (a ++ b) = savedBatches a ++ savedBatches b := by
  simp [savedBatches]

/-- Visiting one product link whose fetch fails on all three attempts:
the exception is caught, nothing is appended, the incremental-save check
is skipped, and the loop continues with the rest. -/
lemma productLoop_cons_fetch_failure (base : String) (prod : ProdSpec)
    (rest : List ProdSpec) (st : CrawlSt) (u : String)
    (hu : prod.url = some u)
    (h0 : isFailure (classifyAttempt (prod.attempts 0)) = true)
    (h1 : isFailure (classifyAttempt (prod.attempts 1)) = true)
    (h2 : isFailure (classifyAttempt (prod.attempts 2)) = true) :
    productLoop none base (prod :: rest) st =
      productLoop none base rest
        ⟨st.buffer, st.clock + 4,
         st.events ++ [Ev.nav (st.clock + 1) (resolveUrl base u),
                       Ev.nav (st.clock + 2) (resolveUrl base u),
                       Ev.nav (st.clock + 3) (resolveUrl base u)]⟩ := by
  simp only [productLoop, flagAt_none, Bool.false_eq_true, if_false, hu,
    safe_get_all_fail _ _ _ h0 h1, h2, if_true]

/-! ## Claim theorems -/

/-- Claim C1, counterexample. The claim says that once the shutdown,
missing-response, 429/503, CAPTCHA and robot-check checks all pass, the
attempt outcome is `Success` with the page markup. On `scrollFailView`
every one of those checks passes, yet the outcome is not `Success`: the
random scroll sequence performed before content capture raises, and
`_safe_get`'s generic handler re-raises that error. -/
theorem c1_counterexample :
    scrollFailView.nav = NavResponse.response 200 ∧
    ((200 == 503) || (200 == 429)) = false ∧
    scrollFailView.captchaCount = 0 ∧
    robotTitle scrollFailView = false ∧
    safeGetClassify false scrollFailView ≠ FetchOutcome.Success scrollFailView.content := by
  refine ⟨rfl, rfl, rfl, by decide, by decide⟩

/-- Claim C1, amended. Every navigation attempt maps to exactly one
`FetchOutcome`, and the classification checks run in the claimed order —
shutdown flag, goto timeout, missing response, status 503/429, CAPTCHA
form, robot-check title — except that the final case is `Success` with
the full rendered markup only when the post-check random scroll side
effect also completes; a raising scroll yields a transport error instead. -/
theorem c1_classification_order :
    ∀ (sd : Bool) (a : AttemptView),
    (sd = true → safeGetClassify sd a = FetchOutcome.ShuttingDown) ∧
    (sd = false → a.nav = NavResponse.timeout →
      safeGetClassify sd a = FetchOutcome.Timeout) ∧
    (sd = false → a.nav = NavResponse.noResponse →
      safeGetClassify sd a = FetchOutcome.TransportError "No response received") ∧
    (∀ s, sd = false → a.nav = NavResponse.response s → ((s == 503) || (s == 429)) = true →
      safeGetClassify sd a = FetchOutcome.RateLimited) ∧
    (∀ s, sd = false → a.nav = NavResponse.response s → ((s == 503) || (s == 429)) = false →
      0 < a.captchaCount → safeGetClassify sd a = FetchOutcome.CaptchaChallenge) ∧
    (∀ s, sd = false → a.nav = NavResponse.response s → ((s == 503) || (s == 429)) = false →
      a.captchaCount = 0 → robotTitle a = true →
      safeGetClassify sd a = FetchOutcome.RobotCheck) ∧
    (∀ s, sd = false → a.nav = NavResponse.response s → ((s == 503) || (s == 429)) = false →
      a.captchaCount = 0 → robotTitle a = false → a.scrollFails = true →
      safeGetClassify sd a = FetchOutcome.TransportError "scroll error") ∧
    (∀ s, sd = false → a.nav = NavResponse.response s → ((s == 503) || (s == 429)) = false →
      a.captchaCount = 0 → robotTitle a = false → a.scrollFails = false →
      safeGetClassify sd a = FetchOutcome.Success a.content) := by
  intro sd a
  refine ⟨?_, ?_, ?_, ?_, ?_, ?_, ?_, ?_⟩
  · intro h; subst h; rfl
  · intro h hn; subst h; simp [safeGetClassify, classifyAttempt, hn]
  · intro h hn; subst h; simp [safeGetClassify, classifyAttempt, hn]
  · intro s h hn hs; subst h; simp [safeGetClassify, classifyAttempt, hn, hs]
  · intro s h hn hs hc; subst h; simp [safeGetClassify, classifyAttempt, hn, hs, hc]
  · intro s h hn hs hc hr; subst h
    simp [safeGetClassify, classifyAttempt, hn, hs, hc, hr]
  · intro s h hn hs hc hr hsc; subst h
    simp [safeGetClassify, classifyAttempt, hn, hs, hc, hr, hsc]
  · intro s h hn hs hc hr hsc; subst h
    simp [safeGetClassify, classifyAttempt, hn, hs, hc, hr, hsc]

/-- Witness for `c1_classification_order` at a concrete attempt. -/
theorem c1_classification_order_witness :
    safeGetClassify true okView = FetchOutcome.ShuttingDown :=
  (c1_classification_order true okView).1 rfl

/-- Claim C2. When every attempt on a URL fails classification, `_safe_get`
makes exactly 3 attempts — never more — with backoff delays of 2s then 4s
between them, and terminates with the last attempt's classification; the
resulting terminal failure is caught by the per-product handler, so the
traversal moves on to the remaining product links with the buffer
untouched (the failure concerns that URL only). -/
theorem c2_retry_exactly_three :
    ∀ (url : String) (atts : Nat → AttemptView) (t : Nat),
    (∀ i, i < 3 → isFailure (classifyAttempt (atts i)) = true) →
    (safe_get none url atts t =
      ⟨classifyAttempt (atts 2), t + 3,
       [Ev.nav t url, Ev.nav (t + 1) url, Ev.nav (t + 2) url], 3, [2, 4]⟩) ∧
    isFailure (safe_get none url atts t).outcome = true ∧
    (∀ (base : String) (prod : ProdSpec) (rest : List ProdSpec) (st : CrawlSt),
      prod.url = some url → prod.attempts = atts →
      productLoop none base (prod :: rest) st =
        productLoop none base rest
          ⟨st.buffer, st.clock + 4,
           st.events ++ [Ev.nav (st.clock + 1) (resolveUrl base url),
                         Ev.nav (st.clock + 2) (resolveUrl base url),
                         Ev.nav (st.clock + 3) (resolveUrl base url)]⟩) := by
  intro url atts t h
  have h0 := h 0 (by omega)
  have h1 := h 1 (by omega)
  have h2 := h 2 (by omega)
  refine ⟨safe_get_all_fail url atts t h0 h1, ?_, ?_⟩
  · rw [safe_get_all_fail url atts t h0 h1]
    exact h2
  · intro base prod rest st hu ha
    subst ha
    exact productLoop_cons_fetch_failure base prod rest st url hu h0 h1 h2

/-- Witness for `c2_retry_exactly_three`: a URL timing out on every try. -/
theorem c2_retry_exactly_three_witness :
    safe_get none "u" (fun _ => timeoutView) 0 =
      ⟨FetchOutcome.Timeout, 3, [Ev.nav 0 "u", Ev.nav 1 "u", Ev.nav 2 "u"], 3, [2, 4]⟩ :=
  (c2_retry_exactly_three "u" (fun _ => timeoutView) 0 (fun _ _ => rfl)).1

/-- Claim C3. If the shutdown flag is already true when `crawl_category`
starts, the call unwinds before any navigation (`GracefulExit`); and in
every normally-returning crawl, every navigation in the trace was issued
at an instant where the flag still read false — so a flag observed true
at a category-page or product-link checkpoint (the flag being monotone)
means the corresponding fetch is never started. -/
theorem c3_shutdown_blocks_fetch :
    ∀ (shutAt : Option Nat) (base catUrl : String) (world : Nat → CatPageSpec)
      (maxPages t0 : Nat),
    (flagAt shutAt t0 = true → crawl_category shutAt base catUrl world maxPages t0 = none) ∧
    (∀ st, crawl_category shutAt base catUrl world maxPages t0 = some st →
      ∀ t u, Ev.nav t u ∈ st.events → flagAt shutAt t = false) := by
  intro sa base catUrl world mp t0
  constructor
  · intro h
    simp [crawl_category, h]
  · intro st h t u hm
    rw [crawl_category] at h
    by_cases hf : flagAt sa t0
    · rw [if_pos hf] at h; cases h
    · rw [if_neg hf] at h
      injection h with h'
      subst h'
      exact navsOk_pageLoop sa base catUrl world (List.range' 1 mp) ⟨[], t0 + 1, []⟩
        (navsOk_nil sa) t u hm

/-- Witness for `c3_shutdown_blocks_fetch`: flag set at instant 0, crawl
entered at instant 0 — the crawl is refused outright. -/
theorem c3_shutdown_blocks_fetch_witness :
    crawl_category (some 0) "b" "c" W1 1 0 = none :=
  (c3_shutdown_blocks_fetch (some 0) "b" "c" W1 1 0).1 rfl

/-- Claim C4. On a product page where the required title element is absent,
extraction returns the empty record, the product is never appended to the
result buffer, and traversal continues with the remaining product links
(only the incremental-save check runs, which never touches the buffer). -/
theorem c4_missing_title_skips :
    ∀ (base : String) (prod : ProdSpec) (rest : List ProdSpec) (st : CrawlSt) (u c : String),
    prod.url = some u →
    classifyAttempt (prod.attempts 0) = FetchOutcome.Success c →
    lookupSel prod.page "span#productTitle" = none →
    extract_core prod.page = ExtractOutcome.failure ∧
    productLoop none base (prod :: rest) st =
      productLoop none base rest
        (flushCheck ⟨st.buffer, st.clock + 3,
          st.events ++ [Ev.nav (st.clock + 1) (resolveUrl base u)]⟩) ∧
    (flushCheck ⟨st.buffer, st.clock + 3,
        st.events ++ [Ev.nav (st.clock + 1) (resolveUrl base u)]⟩).buffer = st.buffer := by
  intro base prod rest st u c hu hf ht
  have he : extract_core prod.page = ExtractOutcome.failure := by
    unfold extract_core
    rw [ht]
  refine ⟨he, productLoop_cons_extract_failure base prod rest st u c hu hf he, ?_⟩
  unfold flushCheck
  split <;> rfl

/-- Witness for `c4_missing_title_skips` on a concrete title-less page. -/
theorem c4_missing_title_skips_witness :
    extract_core noTitlePage = ExtractOutcome.failure :=
  (c4_missing_title_skips "b" ⟨some "http://p", fun _ => okView, noTitlePage⟩ []
    ⟨[], 0, []⟩ "http://p" "x" rfl rfl rfl).1

/-- Claim C5. With the title present, the optional fields are independent
and best-effort: removing any one optional source (rating attribute,
review-count text, feature bullets, details table) still yields a
successful record that differs from the original in that field alone,
which is then absent/empty — no exception escapes extraction. -/
theorem c5_optional_fields_independent :
    ∀ (p : ProductPage) (r : ProductData),
    extract_core p = ExtractOutcome.success r →
    extract_core { p with ratingAttr := none } =
      ExtractOutcome.success { r with rating := none } ∧
    extract_core { p with reviewsText := none } =
      ExtractOutcome.success { r with reviews_count := none } ∧
    extract_core { p with featuresOpt := none } =
      ExtractOutcome.success { r with features := [] } ∧
    extract_core { p with detailRows := none } =
      ExtractOutcome.success { r with details := [] } := by
  intro p r h
  obtain ⟨sel, ra, rv, fe, de, urlv, nowv⟩ := p
  rw [extract_core] at h
  cases ht : lookupSel ⟨sel, ra, rv, fe, de, urlv, nowv⟩ "span#productTitle" with
  | none => rw [ht] at h; cases h
  | some t =>
    rw [ht] at h
    injection h with h'
    subst h'
    have hsel : ∀ (ra' rv' : Option String) (fe' : Option (List String))
        (de' : Option (List (Option String × Option String))),
        lookupSel ⟨sel, ra', rv', fe', de', urlv, nowv⟩ "span#productTitle" = some t :=
      fun _ _ _ _ => ht
    refine ⟨?_, ?_, ?_, ?_⟩ <;>
      · rw [extract_core, hsel]
        rfl

/-- Witness for `c5_optional_fields_independent` on a fully-populated
page: deleting the rating element clears only the rating field. -/
theorem c5_optional_fields_independent_witness :
    extract_core { fullPage with ratingAttr := none } =
      ExtractOutcome.success { recFull with rating := none } :=
  (c5_optional_fields_independent fullPage recFull (by decide)).1

/-- Claim C6, counterexample. The claim predicts that the price probe skips
a candidate whose text is empty. The code stops at the first selector
that *exists*, whatever its text: on `priceEmptyPage` the first matching
selector has empty text and a later one reads `$9.99`, yet extraction
records the empty string. -/
theorem c6_counterexample :
    ¬ (∀ (p : ProductPage) (r : ProductData),
        extract_core p = ExtractOutcome.success r → r.price = firstPriceClaim p) := by
  intro h
  have hc := h priceEmptyPage recPriceEmpty (by decide)
  exact absurd hc (by decide)

/-- Claim C6, amended. The price is probed against the ordered list of
exactly 7 selector candidates (5s per-candidate wait) and extraction
takes the text of the first candidate that *exists* — even when that text
is empty — leaving price absent only when no candidate exists at all. -/
theorem c6_price_first_existing :
    ∀ (p : ProductPage) (r : ProductData),
    extract_core p = ExtractOutcome.success r →
    price_selectors.length = 7 ∧
    (∀ t, r.price = some t →
      ∃ pre sel post, price_selectors = pre ++ sel :: post ∧
        (∀ s ∈ pre, lookupSel p s = none) ∧ lookupSel p sel = some t) ∧
    (r.price = none → ∀ s ∈ price_selectors, lookupSel p s = none) := by
  intro p r h
  have hp : r.price = firstPrice p := by
    rw [extract_core] at h
    cases ht : lookupSel p "span#productTitle" with
    | none => rw [ht] at h; cases h
    | some t => rw [ht] at h; injection h with h'; rw [← h']
  refine ⟨rfl, ?_, ?_⟩
  · intro t htp
    exact findSome?_some_split (fun sel => lookupSel p sel) price_selectors t
      (hp.symm.trans htp)
  · intro hnone s hs
    exact findSome?_none_all (fun sel => lookupSel p sel) price_selectors
      (hp.symm.trans hnone) s hs

/-- Witness for `c6_price_first_existing`: on `fullPage` the recorded
price `$5` comes from the first candidate that exists, all earlier
candidates being absent. -/
theorem c6_price_first_existing_witness :
    ∃ pre sel post, price_selectors = pre ++ sel :: post ∧
      (∀ s ∈ pre, lookupSel fullPage s = none) ∧ lookupSel fullPage sel = some "$5" :=
  (c6_price_first_existing fullPage recFull (by decide)).2.1 "$5" rfl

/-- Claim C7. After a product visit that appends a record, the
incremental-save check fires exactly when the new buffer length is a
multiple of 5: the full visit equation carries the conditional save
event, reaching 5 records triggers a save of the whole buffer, and
reaching 4 does not. -/
theorem c7_flush_on_multiples_of_five :
    ∀ (base : String) (prod : ProdSpec) (st : CrawlSt) (u c : String) (r : ProductData),
    prod.url = some u →
    classifyAttempt (prod.attempts 0) = FetchOutcome.Success c →
    extract_core prod.page = ExtractOutcome.success r →
    (productLoop none base [prod] st =
      ⟨st.buffer ++ [r], st.clock + 3,
       st.events ++ [Ev.nav (st.clock + 1) (resolveUrl base u)] ++
         (if (st.buffer ++ [r]).length % 5 == 0 then [Ev.save (st.buffer ++ [r])] else [])⟩) ∧
    ((st.buffer ++ [r]).length = 5 →
      Ev.save (st.buffer ++ [r]) ∈ (productLoop none base [prod] st).events) ∧
    ((st.buffer ++ [r]).length = 4 →
      (productLoop none base [prod] st).events =
        st.events ++ [Ev.nav (st.clock + 1) (resolveUrl base u)]) := by
  intro base prod st u c r hu hf he
  have hmain : productLoop none base [prod] st =
      ⟨st.buffer ++ [r], st.clock + 3,
       st.events ++ [Ev.nav (st.clock + 1) (resolveUrl base u)] ++
         (if (st.buffer ++ [r]).length % 5 == 0 then [Ev.save (st.buffer ++ [r])] else [])⟩ := by
    rw [productLoop_cons_success base prod [] st u c r hu hf he]
    show flushCheck _ = _
    unfold flushCheck
    by_cases h5 : ((st.buffer ++ [r]).length % 5 == 0) = true
    · simp only [h5, if_true]
    · simp only [Bool.not_eq_true] at h5
      simp only [h5, Bool.false_eq_true, if_false, List.append_nil]
  refine ⟨hmain, ?_, ?_⟩
  · intro h5
    rw [hmain]
    simp [h5]
  · intro h4
    rw [hmain]
    simp [h4]

/-- Witness for `c7_flush_on_multiples_of_five`: a visit that brings the
buffer from 4 to 5 records emits a save of those 5 records. -/
theorem c7_flush_on_multiples_of_five_witness :
    Ev.save [taggedRec "a", taggedRec "b", taggedRec "c", taggedRec "d",
             taggedRec "http://5"] ∈
      (productLoop none "b" [taggedProd "http://5"]
        ⟨[taggedRec "a", taggedRec "b", taggedRec "c", taggedRec "d"], 0, []⟩).events :=
  (c7_flush_on_multiples_of_five "b" (taggedProd "http://5")
    ⟨[taggedRec "a", taggedRec "b", taggedRec "c", taggedRec "d"], 0, []⟩
    "http://5" "x" (taggedRec "http://5") rfl rfl (by decide)).2.1 rfl

/-- Claim C8, counterexample. `_save_data` writes the *entire* accumulated
buffer each time it is called (and each flush targets a fresh timestamped
file), so a record placed in the buffer before the first flush boundary
is written again by every later flush: in a run collecting five records,
the first record is persisted twice (once by the incremental save at five
records, once by the final save), not exactly once. -/
theorem c8_counterexample :
    runMain none "b" "c" W5 1 0 = some (buf5, evs5) ∧
    taggedRec "http://1" ∈ buf5 ∧
    persistCount evs5 (taggedRec "http://1") = 2 := by
  refine ⟨by decide, by decide, by decide⟩

/-- Claim C8, amended. Every record in the result buffer is persisted *at
least* once by the time the run ends normally (the final save writes the
whole buffer); because every flush re-writes the full accumulated buffer
to a separate timestamped file, a record present at an earlier flush
boundary may be written more than once. -/
theorem c8_persisted_at_least_once :
    ∀ (shutAt : Option Nat) (base catUrl : String) (world : Nat → CatPageSpec)
      (maxPages t0 : Nat) (buf : List ProductData) (evs : List Ev) (r : ProductData),
    runMain shutAt base catUrl world maxPages t0 = some (buf, evs) →
    r ∈ buf →
    ∃ b ∈ savedBatches evs, r ∈ b := by
  intro sa base catUrl world mp t0 buf evs r h hr
  cases hc : crawl_category sa base catUrl world mp t0 with
  | none => simp only [runMain, hc] at h; cases h
  | some st =>
    simp only [runMain, hc] at h
    by_cases hemp : st.buffer.isEmpty
    · rw [if_pos hemp] at h
      injection h with h'
      have h1 : st.buffer = buf := congrArg Prod.fst h'
      rw [List.isEmpty_iff] at hemp
      rw [← h1, hemp] at hr
      cases hr
    · rw [if_neg hemp] at h
      injection h with h'
      have h1 : st.buffer = buf := congrArg Prod.fst h'
      have h2 : st.events ++ [Ev.save st.buffer] = evs := congrArg Prod.snd h'
      refine ⟨st.buffer, ?_, ?_⟩
      · rw [← h2, savedBatches_append]
        simp [savedBatches]
      · rw [h1]; exact hr

/-- Witness for `c8_persisted_at_least_once` on the one-product run. -/
theorem c8_persisted_at_least_once_witness :
    ∃ b ∈ savedBatches evs1, rec0 ∈ b :=
  c8_persisted_at_least_once none "b" "c" W1 1 0 [rec0] evs1 rec0
    (by decide) (by decide)

/-- Claim C9, counterexample. The claim says scroll failures are swallowed
— never causing a retry and never propagating. On an attempt that passes
all classification checks but whose scroll sequence raises, `_safe_get`'s
generic handler re-raises, the retry decorator runs all three attempts,
and the failure propagates to the caller as a terminal failure. -/
theorem c9_counterexample :
    classifyAttempt scrollFailView ≠ FetchOutcome.Success scrollFailView.content ∧
    (safe_get none "u9" (fun _ => scrollFailView) 0).attemptsMade = 3 ∧
    isFailure (safe_get none "u9" (fun _ => scrollFailView) 0).outcome = true := by
  refine ⟨by decide, by decide, by decide⟩

/-- Claim C9, amended. A failure of the random scroll sequence is re-raised
by `_safe_get`'s generic handler: the attempt is classified as a
transport error, the fetch *is* retried like any other failure, and after
the 3-attempt budget the error propagates to the caller. -/
theorem c9_scroll_failure_retried :
    ∀ (url : String) (atts : Nat → AttemptView) (t : Nat),
    (∀ i, ∃ s, (atts i).nav = NavResponse.response s ∧ ((s == 503) || (s == 429)) = false ∧
      (atts i).captchaCount = 0 ∧ robotTitle (atts i) = false ∧ (atts i).scrollFails = true) →
    (∀ i, classifyAttempt (atts i) = FetchOutcome.TransportError "scroll error") ∧
    (safe_get none url atts t).outcome = FetchOutcome.TransportError "scroll error" ∧
    (safe_get none url atts t).attemptsMade = 3 := by
  intro url atts t h
  have hc : ∀ i, classifyAttempt (atts i) = FetchOutcome.TransportError "scroll error" := by
    intro i
    obtain ⟨s, hn, hs, hcc, hr, hsc⟩ := h i
    simp [classifyAttempt, hn, hs, hcc, hr, hsc]
  have h0 : isFailure (classifyAttempt (atts 0)) = true := by rw [hc 0]; rfl
  have h1 : isFailure (classifyAttempt (atts 1)) = true := by rw [hc 1]; rfl
  rw [safe_get_all_fail url atts t h0 h1]
  exact ⟨hc, hc 2, rfl⟩

/-- Witness for `c9_scroll_failure_retried` at a concrete attempt view. -/
theorem c9_scroll_failure_retried_witness :
    (safe_get none "w9" (fun _ => scrollFailView) 0).outcome =
      FetchOutcome.TransportError "scroll error" :=
  (c9_scroll_failure_retried "w9" (fun _ => scrollFailView) 0
    (fun _ => ⟨200, rfl, rfl, rfl, rfl, rfl⟩)).2.1

/-- Claim C10. The incremental-save condition is evaluated after a product
visit even when extraction produced the empty record and nothing was
appended: the unchanged buffer length is re-tested against the
multiple-of-5 condition, so with zero collected records the check fires
and an empty buffer is handed to `_save_data`. -/
theorem c10_flush_reevaluated_without_append :
    ∀ (base : String) (prod : ProdSpec) (st : CrawlSt) (u c : String),
    prod.url = some u →
    classifyAttempt (prod.attempts 0) = FetchOutcome.Success c →
    extract_core prod.page = ExtractOutcome.failure →
    (productLoop none base [prod] st =
      ⟨st.buffer, st.clock + 3,
       st.events ++ [Ev.nav (st.clock + 1) (resolveUrl base u)] ++
         (if st.buffer.length % 5 == 0 then [Ev.save st.buffer] else [])⟩) ∧
    (st.buffer = [] → Ev.save [] ∈ (productLoop none base [prod] st).events) := by
  intro base prod st u c hu hf he
  have hmain : productLoop none base [prod] st =
      ⟨st.buffer, st.clock + 3,
       st.events ++ [Ev.nav (st.clock + 1) (resolveUrl base u)] ++
         (if st.buffer.length % 5 == 0 then [Ev.save st.buffer] else [])⟩ := by
    rw [productLoop_cons_extract_failure base prod [] st u c hu hf he]
    show flushCheck _ = _
    unfold flushCheck
    by_cases h5 : (st.buffer.length % 5 == 0) = true
    · simp only [h5, if_true]
    · simp only [Bool.not_eq_true] at h5
      simp only [h5, Bool.false_eq_true, if_false, List.append_nil]
  refine ⟨hmain, ?_⟩
  intro hb
  rw [hmain]
  simp [hb]

/-- Witness for `c10_flush_reevaluated_without_append`: the very first
product skips (missing title) and an empty-buffer save fires. -/
theorem c10_flush_reevaluated_without_append_witness :
    Ev.save [] ∈
      (productLoop none "b" [⟨some "http://q", fun _ => okView, noTitlePage⟩]
        ⟨[], 0, []⟩).events :=
  (c10_flush_reevaluated_without_append "b"
    ⟨some "http://q", fun _ => okView, noTitlePage⟩ ⟨[], 0, []⟩ "http://q" "x"
    rfl rfl rfl).2 rfl

end Crawler
